import Mathlib

/-!
# Verification of pdf2dxf.py

A shallow embedding of `src/pdf2dxf.py` (naufraghi/pdf2dxf) in Lean 4,
together with theorems settling the frozen claims about its specification.

Modelling conventions:
* Python floats are modelled as exact rationals (`ℚ`); the arithmetic in the
  program is the four operations on small decimal literals, whose algebraic
  identities are what the claims are about.
* XML attribute lookup (`elem.get(name)`) returns `Option String`
  (`none` = attribute absent, mirroring Python `None`).
* Python truthiness of an attribute value (`if w and h and svg_path:`) is
  `none`/empty-string falsy, everything else truthy.
* The external collaborators (pdfalto, lxml, the `svg` parser library and
  `dxfwrite`) are out of `src/`; their *outputs* are modelled as plain data
  (a list of page records, a parsed image with a bounding box and a list of
  flattened parts, a drawing as the list of polylines added to it), and the
  code in `src/pdf2dxf.py` that consumes them is translated statement by
  statement.
-/

namespace Pdf2Dxf

/-- A 2D point as exposed by the svg library (`p.x`, `p.y`). -/
structure Point where
  x : ℚ
  y : ℚ
deriving DecidableEq, Repr

/-- A destination-space point: the pair built by `flipped_y`. -/
abbrev DestPoint := ℚ × ℚ

/-- A polyline: the ordered point list handed to `dxf.polyline`. -/
abbrev Polyline := List DestPoint

/-! ## Python `float()` on attribute strings

`iter_pages_and_sizes` calls `float(w)`/`float(h)` on the WIDTH/HEIGHT
attribute strings and catches `ValueError`.  We model `float()` on plain
decimal literals (optional sign, integer digits, optional `.` and fraction
digits, at least one digit in total); any other string fails, which models
`ValueError`. -/

/-- Numeric value of a digit list, most significant first. -/
def digitsToNat (cs : List Char) : ℕ :=
  cs.foldl (fun a c => a * 10 + (c.toNat - 48)) 0

/-- All characters are decimal digits. -/
def allDigits (cs : List Char) : Bool :=
  cs.all Char.isDigit

/-- Python `float(s)` on plain decimal literals (optional sign, integer
digits, an optional dot and fraction digits, at least one digit overall);
`none` models `ValueError`. -/
def pyFloat? (s : String) : Option ℚ :=
  let cs := s.toList
  let sign : ℚ := if cs.head? = some '-' then -1 else 1
  let rest : List Char :=
    if cs.head? = some '-' || cs.head? = some '+' then cs.tail else cs
  let intPart := rest.takeWhile (· ≠ '.')
  let rest2 := rest.dropWhile (· ≠ '.')
  if rest2.isEmpty then
    if intPart ≠ [] && allDigits intPart then
      some (sign * digitsToNat intPart)
    else none
  else
    let fracPart := rest2.tail
    if (intPart ≠ [] || fracPart ≠ []) && allDigits intPart && allDigits fracPart then
      some (sign * ((digitsToNat intPart : ℚ) +
        (digitsToNat fracPart : ℚ) / 10 ^ fracPart.length))
    else none

/-- Python truthiness of an XML attribute value: `None` and `""` are falsy. -/
def truthy : Option String → Bool
  | none => false
  | some s => !s.isEmpty

/-! ## Illustration Locator (`iter_pages_and_sizes`, lines 60–74)

The lxml call
`alto_xml.xpath("//alto:Page[.//alto:Illustration]")` selects, in document
order, the Page elements that have at least one Illustration descendant.  We
model the parsed metadata document as the list of all Page records, each
carrying its WIDTH/HEIGHT attributes and the FILEID attributes of its
Illustration descendants in document order. -/

/-- A Page record of the ALTO metadata document. -/
structure AltoPage where
  /-- The WIDTH attribute (`page.get("WIDTH")`). -/
  width : Option String
  /-- The HEIGHT attribute (`page.get("HEIGHT")`). -/
  height : Option String
  /-- FILEID attributes of the Illustration descendants of the page, document order. -/
  illustrations : List (Option String)
deriving DecidableEq, Repr

/-- Body of the `for page in ...` loop of `iter_pages_and_sizes`:
what one Page record yields (`none` = nothing yielded for this page).

```
w, h = page.get("WIDTH"), page.get("HEIGHT")
illustration = page.xpath(".//alto:Illustration", ...).pop()
svg_path = illustration.get("FILEID")
if w and h and svg_path:
    try:
        yield svg_path, (float(w), float(h))
    except ValueError:
        log.exception("Invalid sizes")
```

`list.pop()` removes and returns the *last* element of the node list, so
`illustration` is the last Illustration descendant of the page;
`page.illustrations.getLast?.join` below is `illustration.get("FILEID")`.
The `except ValueError` catches a failing `float()` call, turning it into a
skip (`none`). -/
def pageItem? (page : AltoPage) : Option (String × ℚ × ℚ) :=
  if truthy page.width && truthy page.height &&
      truthy page.illustrations.getLast?.join then
    match pyFloat? (page.width.getD ""), pyFloat? (page.height.getD "") with
    | some wq, some hq => some ((page.illustrations.getLast?.join).getD "", (wq, hq))
    | _, _ => none
  else
    none

/-- `iter_pages_and_sizes` (lines 60–74): the sequence of
`(svg_path, (width, height))` pairs yielded for a metadata document.  The
xpath keeps the pages having at least one Illustration descendant; each kept
page contributes `pageItem?` of itself. -/
def iter_pages_and_sizes (doc : List AltoPage) : List (String × ℚ × ℚ) :=
  (doc.filter (fun p => !p.illustrations.isEmpty)).filterMap pageItem?

/-! ## Geometry model (outputs of the external `svg` library) -/

/-- One element of `image.flatten()`: either a path-bearing part exposing
`part.segments()` (each segment an ordered point list), or an element with no
`segments` attribute (text, image, group, ...), hit by the
`hasattr(part, "segments")` check. -/
inductive SvgPart where
  | pathBearing (segments : List (List Point))
  | nonGeometric (kind : String)
deriving DecidableEq, Repr

/-- `true` on parts without the `segments` capability. -/
def isNonGeometric : SvgPart → Bool
  | .pathBearing _ => false
  | .nonGeometric _ => true

/-- Number of segments a part contributes to the drawing. -/
def segmentCount : SvgPart → ℕ
  | .pathBearing segs => segs.length
  | .nonGeometric _ => 0

/-- The result of `svg.parse(source)` as used by `convert`: `image.flatten()`
is `parts`; `image.bbox()` returns `(bmin, bmax)` computed by the svg library
from the parsed geometry, of which `convert` only reads `bmax.y`, kept here as
`bboxMaxY`. -/
structure SvgImage where
  parts : List SvgPart
  bboxMaxY : ℚ
deriving DecidableEq, Repr

/-! ## Drawing Assembler (`convert`, lines 98–116) -/

/-- The local `flipped_y` closure of `convert` (lines 105–107):

```
def flipped_y(p):
    # pdf sizes @ 72 px/in -> mm
    return (p.x / 72 * 25.4, (max_y - p.y) / 72 * 25.4)
```

`max_y` is the closed-over `bmax.y` from `image.bbox()`. -/
def flipped_y (max_y : ℚ) (p : Point) : DestPoint :=
  (p.x / 72 * (254 / 10), (max_y - p.y) / 72 * (254 / 10))

/-- What the loop body of `convert` adds to the drawing for one part:
one `dxf.polyline([flipped_y(p) for p in segment])` per segment of a
path-bearing part, nothing for a part without `segments`. -/
def partPolylines (max_y : ℚ) : SvgPart → List Polyline
  | .pathBearing segs => segs.map (fun seg => seg.map (flipped_y max_y))
  | .nonGeometric _ => []

/-- `convert` (lines 98–116): the polylines of the drawing saved to `dest`.
The drawing starts empty (`dxf.drawing(dest)`), the loop adds the polylines of
every part of `image.flatten()` in order, and `drawing.save()` persists
exactly the accumulated list. -/
def convert (image : SvgImage) : List Polyline :=
  (image.parts.map (partPolylines image.bboxMaxY)).flatten

/-! ## `run` (lines 119–125)

```
for c, (svg_path, size_wh) in enumerate(iter_svg_from_pdf(args.pdf)):
    convert(svg_path, args.dxf)
    if c > 0:
        log.debug("Only the first page is currently exported")
        break
```

`iter_svg_from_pdf` yields what `iter_pages_and_sizes` yields for the
extracted metadata document (its temp-dir plumbing is modelled separately
below).  Every `convert` call writes the same destination `args.dxf`, each
save overwriting the previous file content; the model threads the current
saved file content (`none` = `dest` never written). -/

/-- The `for`/`enumerate`/`break` loop of `run`.  `images` maps an
`svg_path` to the parse of the vector file it names. -/
def run_loop (images : String → SvgImage) :
    List (String × ℚ × ℚ) → ℕ → Option (List Polyline) → Option (List Polyline)
  | [], _, saved => saved
  | (svg_path, _) :: rest, c, _saved =>
    let saved := some (convert (images svg_path))
    if c > 0 then saved else run_loop images rest (c + 1) saved

/-- `run` (lines 119–125): the final content of the output file `args.dxf`
after the loop, for a metadata document `doc` extracted from the input PDF. -/
def run (images : String → SvgImage) (doc : List AltoPage) : Option (List Polyline) :=
  run_loop images (iter_pages_and_sizes doc) 0 none

/-- The coordinate transform as the spec words it (for comparison with the
`flipped_y` of the source): `destX = sourceX / 72 * 25.4`,
`destY = (pageHeight - sourceY) / 72 * 25.4`, with `pageHeight` the page
height from the PageDescriptor produced by the Locator. -/
def toDestination_spec (pageHeight : ℚ) (p : Point) : DestPoint :=
  (p.x / 72 * (254 / 10), (pageHeight - p.y) / 72 * (254 / 10))

/-! ## Temporary-directory lifecycle (`iter_svg_from_pdf`, lines 77–95, and
`chdir`, lines 32–37)

```
@contextmanager
def chdir(path):
    curdir = os.getcwd()
    os.chdir(path)
    yield
    os.chdir(curdir)

def iter_svg_from_pdf(source):
    ...
    tmpdir = tempfile.mkdtemp(".pdfimport")
    with chdir(tmpdir):
        ...
        subprocess.check_call(args)
        yield from iter_pages_and_sizes("out.xml")
    log.debug(...)
    shutil.rmtree(tmpdir, ignore_errors=True)
```

To settle the cleanup claim we give the generator body a small-step
semantics.  The `chdir` context manager wraps no `try`/`finally` around its
`yield`, so when an exception is raised inside the `with` body the
`@contextmanager` machinery throws it into `chdir` at the `yield` and it
propagates straight out: the trailing `os.chdir(curdir)` does not run, and
neither does anything after the `with` block.  The body therefore behaves as
the flat statement sequence below, where an exception raised by a statement
skips every later statement (there is no `try`/`except`/`finally` anywhere in
`iter_svg_from_pdf`). -/

/-- The statements of the `iter_svg_from_pdf` generator body, in order. -/
inductive Stmt where
  /-- `tmpdir = tempfile.mkdtemp(".pdfimport")` -/
  | mkdtemp
  /-- `os.chdir(path)` — entry of the `chdir` context manager -/
  | chdirTmp
  /-- `subprocess.check_call(args)` — raises `CalledProcessError` on non-zero exit -/
  | checkCall
  /-- `yield from iter_pages_and_sizes("out.xml")` — a `GeneratorExit` is
  raised here when the consumer abandons iteration before exhaustion -/
  | yieldItems
  /-- `os.chdir(curdir)` — the statement after `yield` in `chdir` -/
  | restoreCwd
  /-- `shutil.rmtree(tmpdir, ignore_errors=True)` -/
  | rmtree
deriving DecidableEq, Repr

/-- Exceptions that can cross a statement of the body. -/
inductive PyExc where
  /-- `subprocess.check_call` exited non-zero. -/
  | calledProcessError
  /-- the consumer closed the generator before exhaustion (early `break`). -/
  | generatorExit
deriving DecidableEq, Repr

/-- How one run can exit: which statements raise. -/
structure GenEnv where
  /-- the pdfalto subprocess exits 0 -/
  subprocessOk : Bool
  /-- the consumer abandons the iteration before exhausting it -/
  earlyClose : Bool
deriving DecidableEq, Repr

/-- Whether a statement raises in the given run (it still executes first:
`check_call` waits for the exit code before raising, and an early close
delivers its `GeneratorExit` at a `yield` that already handed items out). -/
def raises (env : GenEnv) : Stmt → Option PyExc
  | .checkCall => if env.subprocessOk then none else some .calledProcessError
  | .yieldItems => if env.earlyClose then some .generatorExit else none
  | _ => none

/-- Execute a statement sequence: each statement runs in order until one
raises; the raising statement is recorded and the rest are skipped. -/
def execSeq (env : GenEnv) : List Stmt → List Stmt × Option PyExc
  | [] => ([], none)
  | s :: rest =>
    match raises env s with
    | some e => ([s], some e)
    | none =>
      let r := execSeq env rest
      (s :: r.1, r.2)

/-- The body of `iter_svg_from_pdf` as a flat statement sequence (see the
section comment for why the `with chdir(tmpdir):` block flattens this way). -/
def iter_svg_from_pdf_body : List Stmt :=
  [.mkdtemp, .chdirTmp, .checkCall, .yieldItems, .restoreCwd, .rmtree]

/-- The statements of `iter_svg_from_pdf` that actually execute in a run,
with the exception (if any) that escapes. -/
def iter_svg_from_pdf_run (env : GenEnv) : List Stmt × Option PyExc :=
  execSeq env iter_svg_from_pdf_body

/-- The temporary directory is removed exactly when `shutil.rmtree` runs. -/
def tmpdirRemoved (env : GenEnv) : Bool :=
  (iter_svg_from_pdf_run env).1.contains .rmtree

/-! ## Concrete fixtures -/

/-- A metadata document with two illustrated pages. -/
def twoPageDoc : List AltoPage :=
  [⟨some "612", some "792", [some "p1.svg"]⟩,
   ⟨some "612", some "792", [some "p2.svg"]⟩]

/-- Parses of the two vector files of `twoPageDoc`, with distinct geometry. -/
def twoPageImages : String → SvgImage := fun s =>
  if s = "p1.svg" then ⟨[.pathBearing [[⟨0, 0⟩]]], 10⟩
  else ⟨[.pathBearing [[⟨1, 1⟩]]], 10⟩

/-! ## Helper lemmas -/

/-- A truthy attribute value is a non-empty string. -/
theorem truthy_eq_true {o : Option String} (h : truthy o = true) :
    ∃ s, o = some s ∧ s ≠ "" := by
  cases o with
  | none => exact absurd h (by decide)
  | some s =>
    refine ⟨s, rfl, fun hs => ?_⟩
    subst hs
    exact absurd h (by decide)

/-- Inversion: everything `pageItem?` guarantees about a yielded item. -/
theorem pageItem?_some {page : AltoPage} {item : String × ℚ × ℚ}
    (h : pageItem? page = some item) :
    pyFloat? (page.width.getD "") = some item.2.1 ∧
    pyFloat? (page.height.getD "") = some item.2.2 ∧
    page.illustrations.getLast?.join = some item.1 ∧
    item.1 ≠ "" := by
  unfold pageItem? at h
  by_cases hc : (truthy page.width && truthy page.height &&
      truthy page.illustrations.getLast?.join) = true
  · rw [if_pos hc] at h
    simp only [Bool.and_eq_true] at hc
    obtain ⟨⟨hw, hh⟩, hs⟩ := hc
    obtain ⟨s, hjoin, hsne⟩ := truthy_eq_true hs
    cases hwq : pyFloat? (page.width.getD "") with
    | none =>
      rw [hwq] at h
      cases pyFloat? (page.height.getD "") <;> simp at h
    | some wq =>
      rw [hwq] at h
      cases hhq : pyFloat? (page.height.getD "") with
      | none => rw [hhq] at h; simp at h
      | some hq =>
        rw [hhq] at h
        rw [hjoin] at h
        simp only [Option.getD_some, Option.some.injEq] at h
        subst h
        exact ⟨rfl, rfl, hjoin, hsne⟩
  · rw [if_neg hc] at h
    exact absurd h (by simp)

/-- A page with a missing or unparsable WIDTH or HEIGHT yields nothing. -/
theorem pageItem?_eq_none_of_bad {page : AltoPage}
    (hbad : page.width = none ∨ pyFloat? (page.width.getD "") = none ∨
            page.height = none ∨ pyFloat? (page.height.getD "") = none) :
    pageItem? page = none := by
  cases hpi : pageItem? page with
  | none => rfl
  | some item =>
    exfalso
    obtain ⟨h1, h2, _, _⟩ := pageItem?_some hpi
    have hw0 : pyFloat? "" = (none : Option ℚ) := by decide
    rcases hbad with hb | hb | hb | hb
    · rw [hb] at h1
      simp only [Option.getD_none, hw0] at h1
      exact Option.noConfusion h1
    · rw [hb] at h1
      exact Option.noConfusion h1
    · rw [hb] at h2
      simp only [Option.getD_none, hw0] at h2
      exact Option.noConfusion h2
    · rw [hb] at h2
      exact Option.noConfusion h2

/-- A part contributes one polyline per segment. -/
theorem length_partPolylines (m : ℚ) (part : SvgPart) :
    (partPolylines m part).length = segmentCount part := by
  cases part <;> simp [partPolylines, segmentCount]

/-! ### Evaluation lemmas for concrete inputs -/

/-- `float("612") == 612.0`. -/
theorem pyFloat?_612 : pyFloat? "612" = some 612 := by
  have h : "612".toList = ['6', '1', '2'] := rfl
  simp [pyFloat?, h, allDigits, digitsToNat]

/-- `float("792") == 792.0`. -/
theorem pyFloat?_792 : pyFloat? "792" = some 792 := by
  have h : "792".toList = ['7', '9', '2'] := rfl
  simp [pyFloat?, h, allDigits, digitsToNat]

/-- `float("0") == 0.0`. -/
theorem pyFloat?_0 : pyFloat? "0" = some 0 := by
  have h : "0".toList = ['0'] := rfl
  simp [pyFloat?, h, allDigits, digitsToNat]

/-- What one concrete well-formed page yields. -/
theorem pageItem?_eval (w h fid : String) (ills : List (Option String)) (wq hq : ℚ)
    (hwe : w.isEmpty = false) (hhe : h.isEmpty = false) (hfe : fid.isEmpty = false)
    (hlast : ills.getLast? = some (some fid))
    (hw : pyFloat? w = some wq) (hh : pyFloat? h = some hq) :
    pageItem? ⟨some w, some h, ills⟩ = some (fid, (wq, hq)) := by
  unfold pageItem?
  simp [truthy, hwe, hhe, hfe, hlast, hw, hh]

/-- Unfolding of the Locator sequence at a page that yields an item. -/
theorem iter_eval_cons (page : AltoPage) (rest : List AltoPage)
    (item : String × ℚ × ℚ) (hne : page.illustrations.isEmpty = false)
    (hpi : pageItem? page = some item) :
    iter_pages_and_sizes (page :: rest) = item :: iter_pages_and_sizes rest := by
  unfold iter_pages_and_sizes
  rw [List.filter_cons]
  simp [hne, List.filterMap_cons_some hpi]

/-- The loop of `run` on a one-item sequence: the drawing of that item. -/
theorem run_loop_one (images : String → SvgImage) (s : String) (wh : ℚ × ℚ) :
    run_loop images [(s, wh)] 0 none = some (convert (images s)) := rfl

/-- The loop of `run` on a two-item sequence: page 2 is converted as well
(the break test `c > 0` comes after the `convert` call), and its drawing
overwrites that of page 1 in the output file. -/
theorem run_loop_two (images : String → SvgImage) (s₁ s₂ : String)
    (wh₁ wh₂ : ℚ × ℚ) :
    run_loop images [(s₁, wh₁), (s₂, wh₂)] 0 none = some (convert (images s₂)) := rfl

/-! ## Claims -/

/-- **C1** (counterexample).  The claim says the transform applied to every
emitted point is `destY = (pageHeight - sourceY) / 72 * 25.4` with
`pageHeight` the height from the PageDescriptor produced by the Locator.  On
a one-page document whose descriptor height is 792 but whose parsed geometry
has bounding-box maximum y equal to 100, the emitted point is
`flipped_y 100 (0, 0)`, which differs from the formula the claim prescribes
at height 792: `convert` flips around `image.bbox()` maximum y and never
receives the page height from the Locator. -/
theorem C1_counterexample :
    iter_pages_and_sizes [⟨some "612", some "792", [some "p1.svg"]⟩]
      = [("p1.svg", (612, 792))] ∧
    run (fun _ => ⟨[.pathBearing [[⟨0, 0⟩]]], 100⟩)
        [⟨some "612", some "792", [some "p1.svg"]⟩]
      = some [[flipped_y 100 ⟨0, 0⟩]] ∧
    flipped_y 100 ⟨0, 0⟩ ≠ toDestination_spec 792 ⟨0, 0⟩ := by
  refine ⟨?_, rfl, ?_⟩
  · rw [iter_eval_cons ⟨some "612", some "792", [some "p1.svg"]⟩ []
      ("p1.svg", (612, 792)) rfl
      (pageItem?_eval "612" "792" "p1.svg" [some "p1.svg"] 612 792
        rfl rfl rfl rfl pyFloat?_612 pyFloat?_792)]
    rfl
  · simp only [flipped_y, toDestination_spec, ne_eq, Prod.mk.injEq, not_and]
    intro _
    norm_num

/-- **C1** (amended).  Every polyline emitted by `convert` is the pointwise
image of a source segment under
`destX = sourceX / 72 * 25.4`, `destY = (maxY - sourceY) / 72 * 25.4`, where
`maxY` is the bounding-box maximum y of the parsed image (`image.bbox()`),
not the page height of the PageDescriptor; no clamping is applied. -/
theorem C1_transform_uses_bbox (image : SvgImage) (pl : Polyline)
    (hpl : pl ∈ convert image) :
    ∃ segs seg, SvgPart.pathBearing segs ∈ image.parts ∧ seg ∈ segs ∧
      pl = seg.map (fun p =>
        (p.x / 72 * (254 / 10), (image.bboxMaxY - p.y) / 72 * (254 / 10))) := by
  unfold convert at hpl
  rw [List.mem_flatten] at hpl
  obtain ⟨l, hl, hpll⟩ := hpl
  rw [List.mem_map] at hl
  obtain ⟨part, hpart, rfl⟩ := hl
  cases part with
  | pathBearing segs =>
    simp only [partPolylines, List.mem_map] at hpll
    obtain ⟨seg, hseg, rfl⟩ := hpll
    exact ⟨segs, seg, hpart, hseg, rfl⟩
  | nonGeometric k =>
    simp [partPolylines] at hpll

/-- Witness for `C1_transform_uses_bbox` at a concrete image. -/
theorem C1_transform_uses_bbox_witness :
    ∃ segs seg,
      SvgPart.pathBearing segs ∈ (SvgImage.mk [SvgPart.pathBearing [[⟨0, 0⟩]]] 72).parts ∧
      seg ∈ segs ∧
      ([((0 : ℚ), (127 : ℚ) / 5)] : Polyline) = seg.map (fun p =>
        (p.x / 72 * (254 / 10),
         ((SvgImage.mk [SvgPart.pathBearing [[⟨0, 0⟩]]] 72).bboxMaxY - p.y) / 72 * (254 / 10))) :=
  C1_transform_uses_bbox (SvgImage.mk [SvgPart.pathBearing [[⟨0, 0⟩]]] 72)
    [((0 : ℚ), (127 : ℚ) / 5)] (by
      simp [convert, partPolylines, flipped_y]
      norm_num)

/-- **C2** (code bug).  On a document with two illustrated pages the loop of
`run` converts page 1, then converts page 2 as well (the `c > 0` break test
comes only after the `convert` call), so the saved output file holds the
polylines of page 2, not of page 1 as the claim (and the log message of the
code itself) states. -/
theorem C2_second_page_saved :
    run twoPageImages twoPageDoc = some (convert (twoPageImages "p2.svg")) ∧
    convert (twoPageImages "p2.svg") ≠ convert (twoPageImages "p1.svg") := by
  constructor
  · rfl
  · have h1 : twoPageImages "p1.svg" = ⟨[.pathBearing [[⟨0, 0⟩]]], 10⟩ := rfl
    have h2 : twoPageImages "p2.svg" = ⟨[.pathBearing [[⟨1, 1⟩]]], 10⟩ := rfl
    rw [h1, h2]
    simp [convert, partPolylines, flipped_y]

/-- **C3** (counterexample).  On a page with two Illustration regions, in
document order "first.svg" then "last.svg", the Locator yields the FILEID of
the *last* region, not of the first as the claim states (`.pop()` removes the
last element of the xpath node list). -/
theorem C3_counterexample :
    iter_pages_and_sizes [⟨some "612", some "792", [some "first.svg", some "last.svg"]⟩]
      = [("last.svg", (612, 792))] ∧
    ("last.svg" : String) ≠ "first.svg" := by
  refine ⟨?_, by decide⟩
  rw [iter_eval_cons ⟨some "612", some "792", [some "first.svg", some "last.svg"]⟩ []
    ("last.svg", (612, 792)) rfl
    (pageItem?_eval "612" "792" "last.svg" [some "first.svg", some "last.svg"] 612 792
      rfl rfl rfl rfl pyFloat?_612 pyFloat?_792)]
  rfl

/-- **C3** (amended).  For every page record with two or more illustration
regions whose size attributes are truthy and parse, the Locator yields the
descriptor of the *last* illustration region in document order; the earlier
regions are ignored. -/
theorem C3_last_region_wins (page : AltoPage) (pre : List (Option String))
    (fid : String) (wq hq : ℚ) (hpre : pre ≠ [])
    (hill : page.illustrations = pre ++ [some fid]) (hfid : fid ≠ "")
    (hwt : truthy page.width = true) (hht : truthy page.height = true)
    (hw : pyFloat? (page.width.getD "") = some wq)
    (hh : pyFloat? (page.height.getD "") = some hq) :
    iter_pages_and_sizes [page] = [(fid, (wq, hq))] := by
  have hjoin : page.illustrations.getLast?.join = some fid := by
    rw [hill, List.getLast?_concat]
    rfl
  have hie : page.illustrations.isEmpty = false := by
    rw [hill]; cases pre <;> rfl
  have hfe : fid.isEmpty = false := by
    cases hfi : fid.isEmpty
    · rfl
    · exact absurd ((String.isEmpty_iff fid).mp hfi) hfid
  have hpi : pageItem? page = some (fid, (wq, hq)) := by
    unfold pageItem?
    rw [hjoin, hw, hh, hwt, hht]
    simp [truthy, hfe]
  unfold iter_pages_and_sizes
  rw [List.filter_cons]
  simp only [hie, Bool.not_false, if_true, List.filter_nil,
    List.filterMap_cons_some hpi, List.filterMap_nil]

/-- Witness for `C3_last_region_wins` at a concrete two-region page. -/
theorem C3_last_region_wins_witness :
    iter_pages_and_sizes [⟨some "612", some "792", [some "a.svg", some "b.svg"]⟩]
      = [("b.svg", (612, 792))] :=
  C3_last_region_wins ⟨some "612", some "792", [some "a.svg", some "b.svg"]⟩
    [some "a.svg"] "b.svg" 612 792 (by decide) rfl (by decide) (by decide)
    (by decide) pyFloat?_612 pyFloat?_792

/-- **C4** (counterexample).  The claim says the temporary directory is
removed on all exit paths.  When the consumer closes the generator early
(`earlyClose`), or when the extraction subprocess fails, the `GeneratorExit`
or `CalledProcessError` propagates through the `chdir` context manager (which
has no `try`/`finally`) and `shutil.rmtree` is never reached: the directory
is not removed. -/
theorem C4_counterexample :
    tmpdirRemoved ⟨true, true⟩ = false ∧ tmpdirRemoved ⟨false, false⟩ = false := by
  refine ⟨by decide, by decide⟩

/-- **C4** (amended).  The temporary directory is removed exactly on the
full-exhaustion path: `rmtree` runs if and only if the subprocess succeeded
and the consumer did not abandon the iteration early. -/
theorem C4_cleanup_iff_exhausted (env : GenEnv) :
    tmpdirRemoved env = (env.subprocessOk && !env.earlyClose) := by
  obtain ⟨s, e⟩ := env
  cases s <;> cases e <;> rfl

/-- **C5** (counterexample).  The claim says every yielded descriptor has
width > 0.  A page with WIDTH="0" passes the truthiness check (the string "0"
is non-empty) and parses to 0, so a descriptor with width 0 is yielded. -/
theorem C5_counterexample :
    iter_pages_and_sizes [⟨some "0", some "792", [some "p.svg"]⟩]
      = [("p.svg", (0, 792))] ∧
    ¬ ((0 : ℚ) > 0) := by
  refine ⟨?_, by norm_num⟩
  rw [iter_eval_cons ⟨some "0", some "792", [some "p.svg"]⟩ []
    ("p.svg", (0, 792)) rfl
    (pageItem?_eval "0" "792" "p.svg" [some "p.svg"] 0 792
      rfl rfl rfl rfl pyFloat?_0 pyFloat?_792)]
  rfl

/-- **C5** (amended).  Every item yielded by the Locator has a non-empty
vector-file reference, and its width and height are values successfully
parsed by `float()` from the WIDTH/HEIGHT attributes of some page of the
document; positivity of width/height is not checked. -/
theorem C5_descriptor_invariant (doc : List AltoPage) (item : String × ℚ × ℚ)
    (hmem : item ∈ iter_pages_and_sizes doc) :
    item.1 ≠ "" ∧ ∃ page, page ∈ doc ∧
      pyFloat? (page.width.getD "") = some item.2.1 ∧
      pyFloat? (page.height.getD "") = some item.2.2 ∧
      page.illustrations.getLast?.join = some item.1 := by
  unfold iter_pages_and_sizes at hmem
  rw [List.mem_filterMap] at hmem
  obtain ⟨page, hpage, hitem⟩ := hmem
  rw [List.mem_filter] at hpage
  obtain ⟨h1, h2, h3, h4⟩ := pageItem?_some hitem
  exact ⟨h4, page, hpage.1, h1, h2, h3⟩

/-- Witness for `C5_descriptor_invariant` at a concrete document. -/
theorem C5_descriptor_invariant_witness :
    (("p.svg", ((612 : ℚ), (792 : ℚ))) : String × ℚ × ℚ).1 ≠ "" ∧
    ∃ page, page ∈ [(⟨some "612", some "792", [some "p.svg"]⟩ : AltoPage)] ∧
      pyFloat? (page.width.getD "") = some (612 : ℚ) ∧
      pyFloat? (page.height.getD "") = some (792 : ℚ) ∧
      page.illustrations.getLast?.join = some "p.svg" :=
  C5_descriptor_invariant [⟨some "612", some "792", [some "p.svg"]⟩]
    ("p.svg", (612, 792)) (by
      rw [iter_eval_cons ⟨some "612", some "792", [some "p.svg"]⟩ []
        ("p.svg", (612, 792)) rfl
        (pageItem?_eval "612" "792" "p.svg" [some "p.svg"] 612 792
          rfl rfl rfl rfl pyFloat?_612 pyFloat?_792)]
      exact List.mem_cons_self _ _)

/-- **C6** (confirmed).  A page whose WIDTH or HEIGHT attribute is missing or
fails float parsing yields nothing, and the sequence is exactly the
concatenation of what the preceding and following pages yield: iteration
continues, the sequence is not aborted. -/
theorem C6_skip_and_continue (pre post : List AltoPage) (page : AltoPage)
    (hbad : page.width = none ∨ pyFloat? (page.width.getD "") = none ∨
            page.height = none ∨ pyFloat? (page.height.getD "") = none) :
    iter_pages_and_sizes (pre ++ page :: post)
      = iter_pages_and_sizes pre ++ iter_pages_and_sizes post := by
  have hnone := pageItem?_eq_none_of_bad hbad
  unfold iter_pages_and_sizes
  rw [List.filter_append, List.filterMap_append, List.filter_cons]
  split
  · rw [List.filterMap_cons_none hnone]
  · rfl

/-- Witness for `C6_skip_and_continue`: a middle page with unparsable HEIGHT
is skipped while both neighbours are still yielded. -/
theorem C6_skip_and_continue_witness :
    iter_pages_and_sizes ([⟨some "10", some "20", [some "a.svg"]⟩] ++
        (⟨some "612", some "oops", [some "bad.svg"]⟩ : AltoPage) ::
        [⟨some "30", some "40", [some "b.svg"]⟩])
      = iter_pages_and_sizes [⟨some "10", some "20", [some "a.svg"]⟩] ++
        iter_pages_and_sizes [⟨some "30", some "40", [some "b.svg"]⟩] :=
  C6_skip_and_continue [⟨some "10", some "20", [some "a.svg"]⟩]
    [⟨some "30", some "40", [some "b.svg"]⟩]
    ⟨some "612", some "oops", [some "bad.svg"]⟩
    (Or.inr (Or.inr (Or.inr (by decide))))

/-- **C7** (confirmed).  Round-trip endpoints of the coordinate transform:
for flip height h, a point with y = h maps to destination y = 0 exactly, and
a point with y = 0 maps to destination y = h / 72 * 25.4 exactly. -/
theorem C7_roundtrip_endpoints (h : ℚ) (p : Point) :
    (p.y = h → (flipped_y h p).2 = 0) ∧
    (p.y = 0 → (flipped_y h p).2 = h / 72 * (254 / 10)) := by
  constructor
  · intro hy
    simp [flipped_y, hy]
  · intro hy
    simp [flipped_y, hy]

/-- Witness for `C7_roundtrip_endpoints` at h = 792. -/
theorem C7_roundtrip_endpoints_witness :
    (flipped_y 792 ⟨0, 792⟩).2 = 0 ∧
    (flipped_y 792 ⟨0, 0⟩).2 = 792 / 72 * (254 / 10) :=
  ⟨(C7_roundtrip_endpoints 792 ⟨0, 792⟩).1 rfl,
   (C7_roundtrip_endpoints 792 ⟨0, 0⟩).2 rfl⟩

/-- **C8** (confirmed).  An image whose parts are all non-geometric produces
an empty drawing, and a non-geometric part anywhere contributes nothing:
removing it leaves the output unchanged (it is dropped, never fatal). -/
theorem C8_flatten_drop (m : ℚ) :
    (∀ parts : List SvgPart, (∀ part ∈ parts, isNonGeometric part = true) →
      convert ⟨parts, m⟩ = []) ∧
    (∀ (pre post : List SvgPart) (kind : String),
      convert ⟨pre ++ SvgPart.nonGeometric kind :: post, m⟩
        = convert ⟨pre ++ post, m⟩) := by
  constructor
  · intro parts hall
    induction parts with
    | nil => rfl
    | cons part rest ih =>
      have hpart := hall part (List.mem_cons_self part rest)
      have hrest := ih fun q hq => hall q (List.mem_cons_of_mem _ hq)
      cases part with
      | pathBearing segs => exact absurd hpart (by simp [isNonGeometric])
      | nonGeometric k =>
        unfold convert at hrest ⊢
        simpa [partPolylines] using hrest
  · intro pre post kind
    unfold convert
    simp [partPolylines]

/-- Witness for `C8_flatten_drop` on an image of two non-geometric parts. -/
theorem C8_flatten_drop_witness :
    convert ⟨[SvgPart.nonGeometric "Text", SvgPart.nonGeometric "Image"], 7⟩ = [] :=
  (C8_flatten_drop 7).1 [SvgPart.nonGeometric "Text", SvgPart.nonGeometric "Image"]
    (by decide)

/-- **C9** (confirmed).  `convert` appends exactly one polyline per segment of
each path-bearing part — the number of polylines is the total segment count,
with zero-point segments counted like any other — and an empty segment of a
path-bearing part yields an empty polyline that is still in the drawing. -/
theorem C9_one_polyline_per_segment (image : SvgImage) :
    (convert image).length = (image.parts.map segmentCount).sum ∧
    (∀ segs, SvgPart.pathBearing segs ∈ image.parts → [] ∈ segs →
      ([] : Polyline) ∈ convert image) := by
  constructor
  · unfold convert
    rw [List.length_flatten, List.map_map]
    congr 1
    exact List.map_congr_left fun part _ => length_partPolylines image.bboxMaxY part
  · intro segs hmem hempty
    unfold convert
    rw [List.mem_flatten]
    refine ⟨partPolylines image.bboxMaxY (.pathBearing segs),
      List.mem_map_of_mem _ hmem, ?_⟩
    simp only [partPolylines, List.mem_map]
    exact ⟨[], hempty, rfl⟩

/-- Witness for `C9_one_polyline_per_segment`: the empty polyline from an
empty segment is in the drawing. -/
theorem C9_one_polyline_per_segment_witness :
    ([] : Polyline) ∈ convert ⟨[SvgPart.pathBearing [[], [⟨1, 2⟩]]], 9⟩ :=
  (C9_one_polyline_per_segment ⟨[SvgPart.pathBearing [[], [⟨1, 2⟩]]], 9⟩).2
    [[], [⟨1, 2⟩]] (by decide) (by decide)

/-- **C10** (confirmed).  The transform stage preserves polyline structure:
for every segment of every path-bearing part, the drawing contains its
pointwise transform, of the same length, with the point at every index the
transform of the source point at that index — no point is added, dropped or
reordered. -/
theorem C10_pointwise_transform (image : SvgImage) (segs : List (List Point))
    (seg : List Point) (hpart : SvgPart.pathBearing segs ∈ image.parts)
    (hseg : seg ∈ segs) :
    seg.map (flipped_y image.bboxMaxY) ∈ convert image ∧
    (seg.map (flipped_y image.bboxMaxY)).length = seg.length ∧
    ∀ i : ℕ, (seg.map (flipped_y image.bboxMaxY))[i]?
      = (seg[i]?).map (flipped_y image.bboxMaxY) := by
  refine ⟨?_, List.length_map seg _, fun i => List.getElem?_map _ seg i⟩
  unfold convert
  rw [List.mem_flatten]
  refine ⟨partPolylines image.bboxMaxY (.pathBearing segs),
    List.mem_map_of_mem _ hpart, ?_⟩
  simp only [partPolylines, List.mem_map]
  exact ⟨seg, hseg, rfl⟩

/-- Witness for `C10_pointwise_transform` at a one-segment image. -/
theorem C10_pointwise_transform_witness :
    ([⟨3, 4⟩] : List Point).map (flipped_y (10 : ℚ))
      ∈ convert ⟨[SvgPart.pathBearing [[⟨3, 4⟩]]], 10⟩ ∧
    (([⟨3, 4⟩] : List Point).map (flipped_y (10 : ℚ))).length
      = ([⟨3, 4⟩] : List Point).length ∧
    ∀ i : ℕ, (([⟨3, 4⟩] : List Point).map (flipped_y (10 : ℚ)))[i]?
      = ((([⟨3, 4⟩] : List Point))[i]?).map (flipped_y (10 : ℚ)) :=
  C10_pointwise_transform ⟨[SvgPart.pathBearing [[⟨3, 4⟩]]], 10⟩ [[⟨3, 4⟩]]
    [⟨3, 4⟩] (by decide) (by decide)

end Pdf2Dxf
